import Mathlib

/-!
Shallow embedding of `src/main.py` (API de Revisão de Laudo).

The source is a FastAPI application whose only logic is pydantic
validation of a review-request payload plus a trivial acknowledgement
endpoint.  We embed:

* raw (pre-validation) JSON-like values for the fields that carry a
  `mode="before"` validator — such a validator receives the raw value,
  which may be `None`, a string, an int or a bool, and converts it with
  Python `str()`;
* the three textually identical `not_empty` field validators
  (`RequestingPhysician.not_empty`, `AssignedProfessional.not_empty`,
  `ReviewRequest.not_empty`);
* `RequestingPhysician.validate_cpf_digits` (Python `str.isdigit` is
  modelled by `pyIsDigit` below);
* the model validators `ReviewReasons.validate_reasons` and
  `ReviewRequest.validate_business_rules`;
* pydantic's construction pipeline for each model (field validators in
  declaration order, nested models, then the model validator), as
  `RequestingPhysician.validate`, `AssignedProfessional.validate` and
  `ReviewRequest.validate`;
* the endpoint `create_review_request` and the surrounding list
  validation done by FastAPI (`validateAll`, `handle_review_endpoint`);
* `model_dump`-style serialization back to the input shape
  (`ReviewRequest.serialize`).

Errors raised with Python `raise ValueError(msg)` are embedded as an
`Except` error carrying the message; the constructor records the
spec-level category of the raise site (required field / invalid format /
business rule).
-/

namespace RevisaoLaudo

/-- A raw JSON-like value as seen by a pydantic `mode="before"` field
validator: Python `None`, a string, an integer or a boolean. -/
inductive RawValue where
  | null : RawValue
  | str : String → RawValue
  | int : Int → RawValue
  | bool : Bool → RawValue
deriving DecidableEq

/-- Python `str()` applied to a raw value: identity on strings, decimal
rendering of ints, `"True"`/`"False"` for bools, `"None"` for `None`
(never reached in the validators, which test for `None` first). -/
def pyStr : RawValue → String
  | RawValue.null => "None"
  | RawValue.str s => s
  | RawValue.int n => toString n
  | RawValue.bool true => "True"
  | RawValue.bool false => "False"

/-- Validation errors.  Each constructor corresponds to one category of
`raise ValueError(msg)` site in `src/main.py`; the string is the
message raised there. -/
inductive ValErr where
  | requiredField : String → ValErr
  | invalidFormat : String → ValErr
  | businessRule : String → ValErr
deriving DecidableEq

/-- Python whitespace as stripped by `str.strip` (ASCII part): space,
tab, newline, carriage return, vertical tab, form feed.  (Python also
strips a few other Unicode space characters; none occur here.) -/
def pyIsSpace (c : Char) : Bool :=
  c == ' ' || c == '\t' || c == '\n' || c == '\r'
    || c.toNat == 11 || c.toNat == 12

/-- Python `s.strip()`: remove leading and trailing whitespace. -/
def pyStrip (s : String) : String :=
  String.mk (((s.data.dropWhile pyIsSpace).reverse.dropWhile pyIsSpace).reverse)

/-- Model of Python `str.isdigit` on one character, restricted to the
character ranges exercised here: ASCII `0-9`, Arabic-Indic digits
U+0660–U+0669 and Devanagari digits U+0966–U+096F.  (Python accepts
every Unicode decimal digit; the omitted ranges behave like the two
non-ASCII ranges included.) -/
def pyIsDigit (c : Char) : Bool :=
  (decide ('0' ≤ c) && decide (c ≤ '9'))
    || (decide (0x660 ≤ c.toNat) && decide (c.toNat ≤ 0x669))
    || (decide (0x966 ≤ c.toNat) && decide (c.toNat ≤ 0x96F))

/-- Python `s.isdigit()`: false on the empty string, otherwise true iff
every character is a digit. -/
def pyStrIsDigit (s : String) : Bool :=
  if s = "" then false else s.data.all pyIsDigit

namespace RequestingPhysician

/-- `RequestingPhysician.not_empty` (src/main.py:48-57): `None` is
rejected, otherwise the value is converted with `str()`, stripped, and
rejected if the result is empty; the stripped string is returned. -/
def not_empty (value : RawValue) : Except ValErr String :=
  if value = RawValue.null then
    Except.error (ValErr.requiredField "Campo obrigatório não pode ser nulo.")
  else if pyStrip (pyStr value) = "" then
    Except.error (ValErr.requiredField "Campo obrigatório não pode ser vazio.")
  else
    Except.ok (pyStrip (pyStr value))

/-- `RequestingPhysician.validate_cpf_digits` (src/main.py:61-70). -/
def validate_cpf_digits (value : String) : Except ValErr String :=
  if !(pyStrIsDigit value) then
    Except.error (ValErr.invalidFormat "CPF deve conter apenas dígitos.")
  else if value.data.length ≠ 11 then
    Except.error (ValErr.invalidFormat "CPF deve ter exatamente 11 dígitos.")
  else
    Except.ok value

end RequestingPhysician

/-- Modelled from the spec: the `email` field is validated by pydantic
`EmailStr` (library code, not under src/); the spec says it fails with
`InvalidFormatError` unless the value is syntactically of the standard
local-part@domain shape, and performs no other transformation. -/
def validEmailShape (s : String) : Bool :=
  (s.data.count '@' == 1)
    && !(s.data.takeWhile (fun c => !(c == '@'))).isEmpty
    && !((s.data.dropWhile (fun c => !(c == '@'))).drop 1).isEmpty

/-- Modelled from the spec: `EmailStr` validation of the `email` field;
accepts the value unchanged when it has the local-part@domain shape. -/
def validate_email (value : String) : Except ValErr String :=
  if validEmailShape value then Except.ok value
  else Except.error (ValErr.invalidFormat "value is not a valid email address")

/-- The validated `RequestingPhysician` model (src/main.py:25-36). -/
structure RequestingPhysician where
  name : String
  councilCode : String
  professionalRegistrationNumber : String
  councilStateCode : String
  phone : String
  email : String
  cpf : String
deriving DecidableEq

/-- Raw input shape of `RequestingPhysician`: the six fields with a
`mode="before"` validator carry arbitrary raw values; `email` has no
before-validator (pydantic rejects non-strings there), so it is a
string. -/
structure RawRequestingPhysician where
  name : RawValue
  councilCode : RawValue
  professionalRegistrationNumber : RawValue
  councilStateCode : RawValue
  phone : RawValue
  email : String
  cpf : RawValue
deriving DecidableEq

/-- Pydantic construction of `RequestingPhysician`: field validators run
in field declaration order; `cpf` runs `not_empty` (before) then
`validate_cpf_digits` (after). -/
def RequestingPhysician.validate (r : RawRequestingPhysician) :
    Except ValErr RequestingPhysician := do
  let name ← RequestingPhysician.not_empty r.name
  let councilCode ← RequestingPhysician.not_empty r.councilCode
  let prn ← RequestingPhysician.not_empty r.professionalRegistrationNumber
  let csc ← RequestingPhysician.not_empty r.councilStateCode
  let phone ← RequestingPhysician.not_empty r.phone
  let email ← validate_email r.email
  let cpf0 ← RequestingPhysician.not_empty r.cpf
  let cpf ← RequestingPhysician.validate_cpf_digits cpf0
  return { name := name, councilCode := councilCode,
           professionalRegistrationNumber := prn, councilStateCode := csc,
           phone := phone, email := email, cpf := cpf }

/-- The validated `AssignedProfessional` model (src/main.py:73-79). -/
structure AssignedProfessional where
  professionalCode : String
  professionalName : String
deriving DecidableEq

/-- Raw input shape of `AssignedProfessional`. -/
structure RawAssignedProfessional where
  professionalCode : RawValue
  professionalName : RawValue
deriving DecidableEq

/-- `AssignedProfessional.not_empty` (src/main.py:83-92), textually
identical to `RequestingPhysician.not_empty`. -/
def AssignedProfessional.not_empty (value : RawValue) : Except ValErr String :=
  if value = RawValue.null then
    Except.error (ValErr.requiredField "Campo obrigatório não pode ser nulo.")
  else if pyStrip (pyStr value) = "" then
    Except.error (ValErr.requiredField "Campo obrigatório não pode ser vazio.")
  else
    Except.ok (pyStrip (pyStr value))

/-- Pydantic construction of `AssignedProfessional`. -/
def AssignedProfessional.validate (r : RawAssignedProfessional) :
    Except ValErr AssignedProfessional := do
  let code ← AssignedProfessional.not_empty r.professionalCode
  let name ← AssignedProfessional.not_empty r.professionalName
  return { professionalCode := code, professionalName := name }

/-- The `ReviewReasons` model (src/main.py:95-106).  All fields are
typed (six booleans, one optional string); pydantic performs no
transformation on them, so the raw and validated shapes coincide. -/
structure ReviewReasons where
  lateralityError : Bool
  orthographicError : Bool
  diagnosticDivergence : Bool
  wrongExamTopography : Bool
  measurementDivergence : Bool
  other : Bool
  otherDescription : Option String := none
deriving DecidableEq

/-- `ReviewReasons.validate_reasons` (src/main.py:108-138): at least one
flag must be true; when `other` is true, `otherDescription` must be
present and not strip to empty. -/
def ReviewReasons.validate_reasons (r : ReviewReasons) :
    Except ValErr ReviewReasons :=
  if !(r.lateralityError || r.orthographicError || r.diagnosticDivergence
       || r.wrongExamTopography || r.measurementDivergence || r.other) then
    Except.error (ValErr.businessRule
      "Pelo menos um motivo em \x27reviewReasons\x27 deve ser verdadeiro.")
  else if r.other then
    match r.otherDescription with
    | none =>
        Except.error (ValErr.businessRule
          "Quando \x27other\x27 = true, \x27otherDescription\x27 é obrigatório.")
    | some d =>
        if pyStrip d = "" then
          Except.error (ValErr.businessRule
            "Quando \x27other\x27 = true, \x27otherDescription\x27 é obrigatório.")
        else
          Except.ok r
  else
    Except.ok r

/-- The validated `ReviewRequest` model (src/main.py:141-151). -/
structure ReviewRequest where
  accessionNumber : String
  requestingPhysician : RequestingPhysician
  freeAssignmentFlag : Bool
  assignedProfessional : Option AssignedProfessional := none
  reviewJustification : String
  reviewReasons : ReviewReasons
deriving DecidableEq

/-- Raw input shape of `ReviewRequest`: `accessionNumber` and
`reviewJustification` carry raw values (they have a `mode="before"`
validator); the boolean and nested fields are typed. -/
structure RawReviewRequest where
  accessionNumber : RawValue
  requestingPhysician : RawRequestingPhysician
  freeAssignmentFlag : Bool
  assignedProfessional : Option RawAssignedProfessional := none
  reviewJustification : RawValue
  reviewReasons : ReviewReasons
deriving DecidableEq

/-- `ReviewRequest.not_empty` (src/main.py:155-164), textually identical
to `RequestingPhysician.not_empty`. -/
def ReviewRequest.not_empty (value : RawValue) : Except ValErr String :=
  if value = RawValue.null then
    Except.error (ValErr.requiredField "Campo obrigatório não pode ser nulo.")
  else if pyStrip (pyStr value) = "" then
    Except.error (ValErr.requiredField "Campo obrigatório não pode ser vazio.")
  else
    Except.ok (pyStrip (pyStr value))

/-- `ReviewRequest.validate_business_rules` (src/main.py:167-188).
The first two checks re-test the already-validated strings (Python
`not s or not s.strip()`); the third is the assignment rule. -/
def ReviewRequest.validate_business_rules (r : ReviewRequest) :
    Except ValErr ReviewRequest :=
  if r.accessionNumber = "" ∨ pyStrip r.accessionNumber = "" then
    Except.error (ValErr.businessRule "accessionNumber é obrigatório.")
  else if r.reviewJustification = "" ∨ pyStrip r.reviewJustification = "" then
    Except.error (ValErr.businessRule "reviewJustification é obrigatória.")
  else if r.freeAssignmentFlag = false ∧ r.assignedProfessional = none then
    Except.error (ValErr.businessRule
      "Quando \x27freeAssignmentFlag\x27 = false, \x27assignedProfessional\x27 é obrigatório.")
  else
    Except.ok r

/-- Pydantic validation of the optional `assignedProfessional` field:
`None` stays `None`; a present value is validated as an
`AssignedProfessional` (this happens regardless of
`freeAssignmentFlag`). -/
def validateOptionalAssigned :
    Option RawAssignedProfessional → Except ValErr (Option AssignedProfessional)
  | none => Except.ok none
  | some p => (AssignedProfessional.validate p).map some

/-- Pydantic construction of `ReviewRequest`: field validators and
nested models in declaration order, then the model validator. -/
def ReviewRequest.validate (r : RawReviewRequest) :
    Except ValErr ReviewRequest := do
  let accession ← ReviewRequest.not_empty r.accessionNumber
  let physician ← RequestingPhysician.validate r.requestingPhysician
  let assigned ← validateOptionalAssigned r.assignedProfessional
  let justification ← ReviewRequest.not_empty r.reviewJustification
  let reasons ← ReviewReasons.validate_reasons r.reviewReasons
  ReviewRequest.validate_business_rules
    { accessionNumber := accession, requestingPhysician := physician,
      freeAssignmentFlag := r.freeAssignmentFlag,
      assignedProfessional := assigned,
      reviewJustification := justification, reviewReasons := reasons }

/-- The `ReviewResponse` model (src/main.py:191-198). -/
structure ReviewResponse where
  status : String
  message : String
  receivedItems : Nat
deriving DecidableEq

/-- An HTTP error result (FastAPI `HTTPException` / validation error). -/
structure HTTPError where
  status_code : Nat
  detail : String
deriving DecidableEq

/-- `create_review_request` (src/main.py:207-236): HTTP 400 on an empty
payload list, otherwise an ACK whose `receivedItems` is the list
length. -/
def create_review_request (payload : List ReviewRequest) :
    Except HTTPError ReviewResponse :=
  if payload = [] then
    Except.error
      { status_code := 400,
        detail := "A requisição deve conter pelo menos um item na lista." }
  else
    Except.ok
      { status := "ACK",
        message := "Solicitação(ões) de revisão recebida(s) com sucesso.",
        receivedItems := payload.length }

/-- FastAPI validation of the `List[ReviewRequest]` body: each element
is validated in order; the first failure rejects the request. -/
def validateAll : List RawReviewRequest → Except ValErr (List ReviewRequest)
  | [] => Except.ok []
  | r :: rest => do
    let v ← ReviewRequest.validate r
    let vs ← validateAll rest
    return v :: vs

/-- The message carried by a validation error. -/
def valErrMessage : ValErr → String
  | ValErr.requiredField m => m
  | ValErr.invalidFormat m => m
  | ValErr.businessRule m => m

/-- The review endpoint as seen from the transport: body validation
(HTTP 422 on failure) followed by `create_review_request`. -/
def handle_review_endpoint (raw : List RawReviewRequest) :
    Except HTTPError ReviewResponse :=
  match validateAll raw with
  | Except.error e => Except.error { status_code := 422, detail := valErrMessage e }
  | Except.ok payload => create_review_request payload

/-- Body of the health response. -/
structure HealthResponse where
  status : String
  service : String
deriving DecidableEq

/-- Modelled from the spec: the `GET /health` handler is not present in
src/ (only the review endpoint is); spec §6 specifies `GET /health` →
HTTP 200 with body `\x7bstatus: "UP", service: "revisaolaudo"\x7d`. -/
def health_check : Nat × HealthResponse :=
  (200, { status := "UP", service := "revisaolaudo" })

/-- `model_dump` of a validated `RequestingPhysician` back to the input
shape: every stored string comes back as a JSON string. -/
def RequestingPhysician.serialize (p : RequestingPhysician) :
    RawRequestingPhysician :=
  { name := RawValue.str p.name, councilCode := RawValue.str p.councilCode,
    professionalRegistrationNumber := RawValue.str p.professionalRegistrationNumber,
    councilStateCode := RawValue.str p.councilStateCode,
    phone := RawValue.str p.phone, email := p.email,
    cpf := RawValue.str p.cpf }

/-- `model_dump` of a validated `AssignedProfessional`. -/
def AssignedProfessional.serialize (p : AssignedProfessional) :
    RawAssignedProfessional :=
  { professionalCode := RawValue.str p.professionalCode,
    professionalName := RawValue.str p.professionalName }

/-- `model_dump` of a validated `ReviewRequest` back to the input
shape. -/
def ReviewRequest.serialize (v : ReviewRequest) : RawReviewRequest :=
  { accessionNumber := RawValue.str v.accessionNumber,
    requestingPhysician := v.requestingPhysician.serialize,
    freeAssignmentFlag := v.freeAssignmentFlag,
    assignedProfessional := v.assignedProfessional.map AssignedProfessional.serialize,
    reviewJustification := RawValue.str v.reviewJustification,
    reviewReasons := v.reviewReasons }

/-- Whitespace trimming of a raw value: trims a string, leaves every
other value unchanged. -/
def trimRawValue : RawValue → RawValue
  | RawValue.str s => RawValue.str (pyStrip s)
  | v => v

/-- The input with only whitespace trimming applied to the string fields
that carry a `not_empty` validator (the transformation the round-trip
spec sentence permits). -/
def trimRawRequestingPhysician (r : RawRequestingPhysician) :
    RawRequestingPhysician :=
  { name := trimRawValue r.name, councilCode := trimRawValue r.councilCode,
    professionalRegistrationNumber := trimRawValue r.professionalRegistrationNumber,
    councilStateCode := trimRawValue r.councilStateCode,
    phone := trimRawValue r.phone, email := r.email,
    cpf := trimRawValue r.cpf }

/-- Trimming on the optional professional. -/
def trimRawAssignedProfessional (p : RawAssignedProfessional) :
    RawAssignedProfessional :=
  { professionalCode := trimRawValue p.professionalCode,
    professionalName := trimRawValue p.professionalName }

/-- The whole input with only whitespace trimming applied to its
`not_empty`-validated string fields. -/
def trimRawReviewRequest (r : RawReviewRequest) : RawReviewRequest :=
  { accessionNumber := trimRawValue r.accessionNumber,
    requestingPhysician := trimRawRequestingPhysician r.requestingPhysician,
    freeAssignmentFlag := r.freeAssignmentFlag,
    assignedProfessional := r.assignedProfessional.map trimRawAssignedProfessional,
    reviewJustification := trimRawValue r.reviewJustification,
    reviewReasons := r.reviewReasons }

/-- Whether a raw value is a JSON string. -/
def isStr : RawValue → Bool
  | RawValue.str _ => true
  | _ => false

/-- Whether every `not_empty`-validated field of the input is given as a
JSON string (the well-typed input shape of the contract). -/
def stringTyped (r : RawReviewRequest) : Bool :=
  isStr r.accessionNumber && isStr r.reviewJustification
    && isStr r.requestingPhysician.name
    && isStr r.requestingPhysician.councilCode
    && isStr r.requestingPhysician.professionalRegistrationNumber
    && isStr r.requestingPhysician.councilStateCode
    && isStr r.requestingPhysician.phone
    && isStr r.requestingPhysician.cpf
    && (match r.assignedProfessional with
        | none => true
        | some p => isStr p.professionalCode && isStr p.professionalName)

/-- Decidable equality on `Except` results, used to evaluate the
validators on concrete inputs. -/
instance {ε α : Type} [DecidableEq ε] [DecidableEq α] : DecidableEq (Except ε α) :=
  fun x y =>
  match x, y with
  | Except.error a, Except.error b =>
      if h : a = b then isTrue (by rw [h])
      else isFalse (by intro hc; injection hc; contradiction)
  | Except.error _, Except.ok _ => isFalse (by intro hc; cases hc)
  | Except.ok _, Except.error _ => isFalse (by intro hc; cases hc)
  | Except.ok a, Except.ok b =>
      if h : a = b then isTrue (by rw [h])
      else isFalse (by intro hc; injection hc; contradiction)

/-- A concrete valid raw physician payload. -/
def exPhysician : RawRequestingPhysician :=
  { name := RawValue.str "  Ana Souza  ", councilCode := RawValue.str "CRM",
    professionalRegistrationNumber := RawValue.str "12345",
    councilStateCode := RawValue.str "CE", phone := RawValue.str "85999990000",
    email := "ana@example.com", cpf := RawValue.str "12345678901" }

/-- The physician `exPhysician` validates to. -/
def exPhysicianOut : RequestingPhysician :=
  { name := "Ana Souza", councilCode := "CRM",
    professionalRegistrationNumber := "12345", councilStateCode := "CE",
    phone := "85999990000", email := "ana@example.com", cpf := "12345678901" }

/-- A concrete reasons record with one flag set. -/
def exReasons : ReviewReasons :=
  { lateralityError := true, orthographicError := false,
    diagnosticDivergence := false, wrongExamTopography := false,
    measurementDivergence := false, other := false, otherDescription := none }

/-- A concrete raw assigned professional. -/
def exProfessional : RawAssignedProfessional :=
  { professionalCode := RawValue.str "P001",
    professionalName := RawValue.str "Carlos Lima" }

/-- The professional `exProfessional` validates to. -/
def exProfessionalOut : AssignedProfessional :=
  { professionalCode := "P001", professionalName := "Carlos Lima" }

/-- A concrete fully valid raw review request. -/
def exInput : RawReviewRequest :=
  { accessionNumber := RawValue.str "ACC123",
    requestingPhysician := exPhysician, freeAssignmentFlag := false,
    assignedProfessional := some exProfessional,
    reviewJustification := RawValue.str "Justificativa valida",
    reviewReasons := exReasons }

/-- The request `exInput` validates to. -/
def exOut : ReviewRequest :=
  { accessionNumber := "ACC123", requestingPhysician := exPhysicianOut,
    freeAssignmentFlag := false, assignedProfessional := some exProfessionalOut,
    reviewJustification := "Justificativa valida", reviewReasons := exReasons }

/-- `exInput` with `accessionNumber` given as the JSON number 123
instead of a string. -/
def exInputInt : RawReviewRequest :=
  { exInput with accessionNumber := RawValue.int 123 }

/-- The request `exInputInt` validates to: `accessionNumber` has become
the string "123". -/
def exOutInt : ReviewRequest :=
  { exOut with accessionNumber := "123" }

/-! ### Helper lemmas -/

theorem except_bind_ok {ε α β : Type} (x : Except ε α) (f : α → Except ε β) (b : β) :
    (x >>= f = Except.ok b) ↔ ∃ a, x = Except.ok a ∧ f a = Except.ok b := by
  cases x with
  | error e => simp [Bind.bind, Except.bind]
  | ok a => simp [Bind.bind, Except.bind]

theorem except_pure_ok {ε α : Type} (a b : α) :
    ((pure a : Except ε α) = Except.ok b) ↔ a = b := by
  simp [pure, Except.pure]

theorem except_map_ok {ε α β : Type} (x : Except ε α) (f : α → β) (b : β) :
    (x.map f = Except.ok b) ↔ ∃ a, x = Except.ok a ∧ b = f a := by
  cases x with
  | error e => simp [Except.map]
  | ok a => simp [Except.map, eq_comm]

/-- The three `not_empty` validators are textually identical. -/
theorem ap_not_empty_eq_rp : AssignedProfessional.not_empty = RequestingPhysician.not_empty :=
  rfl

/-- The three `not_empty` validators are textually identical. -/
theorem rr_not_empty_eq_rp : ReviewRequest.not_empty = RequestingPhysician.not_empty :=
  rfl

theorem not_empty_ok {v : RawValue} {t : String}
    (h : RequestingPhysician.not_empty v = Except.ok t) :
    v ≠ RawValue.null ∧ t = pyStrip (pyStr v) := by
  unfold RequestingPhysician.not_empty at h
  split at h
  · exact absurd h (by simp)
  · split at h
    · exact absurd h (by simp)
    · rename_i h1 h2
      refine ⟨h1, ?_⟩
      injection h with h
      exact h.symm

theorem validate_cpf_digits_ok {s t : String}
    (h : RequestingPhysician.validate_cpf_digits s = Except.ok t) : t = s := by
  unfold RequestingPhysician.validate_cpf_digits at h
  split at h
  · exact absurd h (by simp)
  · split at h
    · exact absurd h (by simp)
    · injection h with h
      exact h.symm

theorem validate_email_ok {s t : String}
    (h : validate_email s = Except.ok t) : t = s := by
  unfold validate_email at h
  split at h
  · injection h with h
    exact h.symm
  · exact absurd h (by simp)

theorem validate_reasons_ok {r t : ReviewReasons}
    (h : ReviewReasons.validate_reasons r = Except.ok t) : t = r := by
  unfold ReviewReasons.validate_reasons at h
  split at h
  · exact absurd h (by simp)
  · split at h
    · split at h
      · exact absurd h (by simp)
      · split at h
        · exact absurd h (by simp)
        · injection h with h
          exact h.symm
    · injection h with h
      exact h.symm

theorem validate_business_rules_ok {r t : ReviewRequest}
    (h : ReviewRequest.validate_business_rules r = Except.ok t) : t = r := by
  unfold ReviewRequest.validate_business_rules at h
  split at h
  · exact absurd h (by simp)
  · split at h
    · exact absurd h (by simp)
    · split at h
      · exact absurd h (by simp)
      · injection h with h
        exact h.symm

/-- The value a successfully validated physician must have: each
`not_empty` field stripped, `email` and `cpf` passed through
unchanged by their format rules. -/
def canonicalRP (r : RawRequestingPhysician) : RequestingPhysician :=
  { name := pyStrip (pyStr r.name),
    councilCode := pyStrip (pyStr r.councilCode),
    professionalRegistrationNumber := pyStrip (pyStr r.professionalRegistrationNumber),
    councilStateCode := pyStrip (pyStr r.councilStateCode),
    phone := pyStrip (pyStr r.phone), email := r.email,
    cpf := pyStrip (pyStr r.cpf) }

theorem rp_validate_ok {r : RawRequestingPhysician}
    {p : RequestingPhysician} (h : RequestingPhysician.validate r = Except.ok p) :
    p = canonicalRP r := by
  unfold RequestingPhysician.validate at h
  simp only [except_bind_ok, except_pure_ok] at h
  obtain ⟨name, hname, councilCode, hcc, prn, hprn, csc, hcsc, phone, hph,
    email, hem, cpf0, hcpf0, cpf, hcpf, hp⟩ := h
  obtain ⟨-, rfl⟩ := not_empty_ok hname
  obtain ⟨-, rfl⟩ := not_empty_ok hcc
  obtain ⟨-, rfl⟩ := not_empty_ok hprn
  obtain ⟨-, rfl⟩ := not_empty_ok hcsc
  obtain ⟨-, rfl⟩ := not_empty_ok hph
  obtain rfl := validate_email_ok hem
  obtain ⟨-, rfl⟩ := not_empty_ok hcpf0
  obtain rfl := validate_cpf_digits_ok hcpf
  exact hp.symm

/-- The value a successfully validated professional must have. -/
def canonicalAP (p : RawAssignedProfessional) : AssignedProfessional :=
  { professionalCode := pyStrip (pyStr p.professionalCode),
    professionalName := pyStrip (pyStr p.professionalName) }

theorem ap_validate_ok {r : RawAssignedProfessional}
    {p : AssignedProfessional} (h : AssignedProfessional.validate r = Except.ok p) :
    p = canonicalAP r := by
  unfold AssignedProfessional.validate at h
  simp only [except_bind_ok, except_pure_ok] at h
  obtain ⟨code, hcode, name, hname, hp⟩ := h
  rw [ap_not_empty_eq_rp] at hcode hname
  obtain ⟨-, rfl⟩ := not_empty_ok hcode
  obtain ⟨-, rfl⟩ := not_empty_ok hname
  exact hp.symm

theorem validateOptionalAssigned_ok {o : Option RawAssignedProfessional}
    {w : Option AssignedProfessional} (h : validateOptionalAssigned o = Except.ok w) :
    w = o.map canonicalAP := by
  cases o with
  | none =>
    unfold validateOptionalAssigned at h
    injection h with h
    simp [h.symm]
  | some p =>
    unfold validateOptionalAssigned at h
    rw [except_map_ok] at h
    obtain ⟨a, ha, rfl⟩ := h
    simp [ap_validate_ok ha]

/-- The value a successfully validated review request must have. -/
def canonicalRR (r : RawReviewRequest) : ReviewRequest :=
  { accessionNumber := pyStrip (pyStr r.accessionNumber),
    requestingPhysician := canonicalRP r.requestingPhysician,
    freeAssignmentFlag := r.freeAssignmentFlag,
    assignedProfessional := r.assignedProfessional.map canonicalAP,
    reviewJustification := pyStrip (pyStr r.reviewJustification),
    reviewReasons := r.reviewReasons }

theorem rr_validate_ok {r : RawReviewRequest} {v : ReviewRequest}
    (h : ReviewRequest.validate r = Except.ok v) : v = canonicalRR r := by
  unfold ReviewRequest.validate at h
  simp only [except_bind_ok, except_pure_ok] at h
  obtain ⟨accession, hacc, physician, hphy, assigned, hass, justification,
    hjus, reasons, hrea, hv⟩ := h
  rw [rr_not_empty_eq_rp] at hacc hjus
  obtain ⟨-, rfl⟩ := not_empty_ok hacc
  obtain rfl := rp_validate_ok hphy
  obtain rfl := validateOptionalAssigned_ok hass
  obtain ⟨-, rfl⟩ := not_empty_ok hjus
  obtain rfl := validate_reasons_ok hrea
  unfold canonicalRR
  exact validate_business_rules_ok hv

theorem validateAll_ok_length {raw : List RawReviewRequest}
    {ps : List ReviewRequest} (h : validateAll raw = Except.ok ps) :
    ps.length = raw.length := by
  induction raw generalizing ps with
  | nil =>
    unfold validateAll at h
    injection h with h
    subst h
    rfl
  | cons r rest ih =>
    unfold validateAll at h
    simp only [except_bind_ok, except_pure_ok] at h
    obtain ⟨v, -, vs, hvs, hps⟩ := h
    rw [← hps]
    simp [ih hvs]

theorem isStr_exists {v : RawValue} (h : isStr v = true) : ∃ s, v = RawValue.str s := by
  cases v with
  | str s => exact ⟨s, rfl⟩
  | null => simp [isStr] at h
  | int n => simp [isStr] at h
  | bool b => simp [isStr] at h

/-! ### Claim theorems -/

/-- C1: construction of a `ReviewReasons` value fails with the
no-reason-selected business-rule error iff all six boolean flags are
false; when `other` is true it fails with the missing-other-description
error iff `otherDescription` is absent or strips to empty, and a
non-blank description passes that rule. -/
theorem validate_reasons_spec (r : ReviewReasons) :
    (ReviewReasons.validate_reasons r =
        Except.error (ValErr.businessRule
          "Pelo menos um motivo em \x27reviewReasons\x27 deve ser verdadeiro.")
      ↔ r.lateralityError = false ∧ r.orthographicError = false
          ∧ r.diagnosticDivergence = false ∧ r.wrongExamTopography = false
          ∧ r.measurementDivergence = false ∧ r.other = false) ∧
    (r.other = true →
      ((ReviewReasons.validate_reasons r =
          Except.error (ValErr.businessRule
            "Quando \x27other\x27 = true, \x27otherDescription\x27 é obrigatório.")
        ↔ r.otherDescription = none
            ∨ ∃ d, r.otherDescription = some d ∧ pyStrip d = "") ∧
      (∀ d, r.otherDescription = some d → pyStrip d ≠ "" →
        ReviewReasons.validate_reasons r = Except.ok r))) := by
  obtain ⟨a, b, c, d0, e, f, od⟩ := r
  cases a <;> cases b <;> cases c <;> cases d0 <;> cases e <;> cases f <;>
    cases od <;>
      first
        | (simp [ReviewReasons.validate_reasons]; done)
        | (rename_i s
           by_cases hs : pyStrip s = "" <;>
             simp [ReviewReasons.validate_reasons, hs])

/-- C1 witness: a reasons record with `other = true` and a non-blank
description evaluated through the theorem. -/
theorem validate_reasons_spec_witness :
    ((ReviewReasons.mk false false false false false true (some "desc")).other = true
        ∧ pyStrip "desc" ≠ "") ∧
    ReviewReasons.validate_reasons
        (ReviewReasons.mk false false false false false true (some "desc")) =
      Except.ok (ReviewReasons.mk false false false false false true (some "desc")) :=
  ⟨⟨by decide, by decide⟩,
    ((validate_reasons_spec
        (ReviewReasons.mk false false false false false true (some "desc"))).2
      (by decide)).2 "desc" rfl (by decide)⟩

/-- C2: once the field-level rules have passed (the validated strings
strip to non-empty), `ReviewRequest.validate_business_rules` fails with
the assignedProfessional-required business-rule error iff
`freeAssignmentFlag` is false and `assignedProfessional` is absent, and
passes whenever the flag is true, whatever the professional field
holds. -/
theorem validate_business_rules_assigned_spec (r : ReviewRequest)
    (ha : pyStrip r.accessionNumber ≠ "")
    (hj : pyStrip r.reviewJustification ≠ "") :
    (ReviewRequest.validate_business_rules r =
        Except.error (ValErr.businessRule
          "Quando \x27freeAssignmentFlag\x27 = false, \x27assignedProfessional\x27 é obrigatório.")
      ↔ r.freeAssignmentFlag = false ∧ r.assignedProfessional = none) ∧
    (r.freeAssignmentFlag = true →
      ReviewRequest.validate_business_rules r = Except.ok r) := by
  have hane : r.accessionNumber ≠ "" := by
    intro h
    exact ha (by rw [h]; rfl)
  have hjne : r.reviewJustification ≠ "" := by
    intro h
    exact hj (by rw [h]; rfl)
  have ha0 : ¬(r.accessionNumber = "" ∨ pyStrip r.accessionNumber = "") := by
    rintro (h | h)
    · exact hane h
    · exact ha h
  have hj0 : ¬(r.reviewJustification = "" ∨ pyStrip r.reviewJustification = "") := by
    rintro (h | h)
    · exact hjne h
    · exact hj h
  unfold ReviewRequest.validate_business_rules
  rw [if_neg ha0, if_neg hj0]
  constructor
  · constructor
    · intro h
      by_cases hc : r.freeAssignmentFlag = false ∧ r.assignedProfessional = none
      · exact hc
      · rw [if_neg hc] at h
        exact absurd h (by simp)
    · intro hc
      rw [if_pos hc]
  · intro hf
    have hc : ¬(r.freeAssignmentFlag = false ∧ r.assignedProfessional = none) := by
      rintro ⟨h1, -⟩
      rw [hf] at h1
      cases h1
    rw [if_neg hc]

/-- C2 witness: the validated example request (flag false, professional
present) evaluated through the theorem. -/
theorem validate_business_rules_assigned_spec_witness :
    (pyStrip exOut.accessionNumber ≠ "" ∧ pyStrip exOut.reviewJustification ≠ "") ∧
    (ReviewRequest.validate_business_rules exOut =
        Except.error (ValErr.businessRule
          "Quando \x27freeAssignmentFlag\x27 = false, \x27assignedProfessional\x27 é obrigatório.")
      ↔ exOut.freeAssignmentFlag = false ∧ exOut.assignedProfessional = none) :=
  ⟨⟨by decide, by decide⟩,
    (validate_business_rules_assigned_spec exOut (by decide) (by decide)).1⟩

/-- The field-level required-string contract of the spec, stated for one
`not_empty` validator: null is rejected with the null-required-field
error, a whitespace-only string is rejected with the empty-required-field
error, and any other string validates to its stripped form. -/
def notEmptyContract (f : RawValue → Except ValErr String) : Prop :=
  f RawValue.null =
      Except.error (ValErr.requiredField "Campo obrigatório não pode ser nulo.") ∧
  ∀ s : String,
    (pyStrip s = "" →
      f (RawValue.str s) =
        Except.error (ValErr.requiredField "Campo obrigatório não pode ser vazio.")) ∧
    (pyStrip s ≠ "" → f (RawValue.str s) = Except.ok (pyStrip s))

/-- C3: all three `not_empty` field validators (covering every required
string field of the three models) satisfy the required-field contract:
null fails, whitespace-only fails after trimming, anything else
validates to the trimmed string. -/
theorem not_empty_spec :
    notEmptyContract RequestingPhysician.not_empty ∧
    notEmptyContract AssignedProfessional.not_empty ∧
    notEmptyContract ReviewRequest.not_empty := by
  have key : notEmptyContract RequestingPhysician.not_empty := by
    constructor
    · rfl
    · intro s
      constructor
      · intro hs
        simp [RequestingPhysician.not_empty, pyStr, hs]
      · intro hs
        simp [RequestingPhysician.not_empty, pyStr, hs]
  exact ⟨key, ap_not_empty_eq_rp ▸ key, rr_not_empty_eq_rp ▸ key⟩

/-- C3 witness: the contract evaluated on a concrete padded string. -/
theorem not_empty_spec_witness :
    pyStrip "  x  " ≠ "" ∧
    RequestingPhysician.not_empty (RawValue.str "  x  ") = Except.ok (pyStrip "  x  ") :=
  ⟨by decide, (not_empty_spec.1.2 "  x  ").2 (by decide)⟩

/-- C4: on a non-empty string (the field-level rule has passed), the CPF
rule fails with the digits invalid-format error when some character is
not a digit, fails with the length invalid-format error when all
characters are digits but the length is not 11, and otherwise passes
with the value unchanged; the three concrete spec examples behave as
stated.  No checksum is computed. -/
theorem validate_cpf_digits_spec :
    (∀ s : String, s ≠ "" →
      (s.data.all pyIsDigit = false →
        RequestingPhysician.validate_cpf_digits s =
          Except.error (ValErr.invalidFormat "CPF deve conter apenas dígitos.")) ∧
      (s.data.all pyIsDigit = true → s.data.length ≠ 11 →
        RequestingPhysician.validate_cpf_digits s =
          Except.error (ValErr.invalidFormat "CPF deve ter exatamente 11 dígitos.")) ∧
      (s.data.all pyIsDigit = true → s.data.length = 11 →
        RequestingPhysician.validate_cpf_digits s = Except.ok s)) ∧
    RequestingPhysician.validate_cpf_digits "12345678901" =
      Except.ok "12345678901" ∧
    RequestingPhysician.validate_cpf_digits "1234567890" =
      Except.error (ValErr.invalidFormat "CPF deve ter exatamente 11 dígitos.") ∧
    RequestingPhysician.validate_cpf_digits "1234567890a" =
      Except.error (ValErr.invalidFormat "CPF deve conter apenas dígitos.") := by
  refine ⟨?_, by decide, by decide, by decide⟩
  intro s hs
  refine ⟨fun hall => ?_, fun hall hlen => ?_, fun hall hlen => ?_⟩ <;>
    simp_all [RequestingPhysician.validate_cpf_digits, pyStrIsDigit]

/-- C4 witness: the general clause applied to a concrete 11-digit
string. -/
theorem validate_cpf_digits_spec_witness :
    ("98765432100" ≠ "" ∧ "98765432100".data.all pyIsDigit = true
        ∧ "98765432100".data.length = 11) ∧
    RequestingPhysician.validate_cpf_digits "98765432100" = Except.ok "98765432100" := by
  refine ⟨⟨by decide, by decide, by decide⟩, ?_⟩
  exact (validate_cpf_digits_spec.1 "98765432100" (by decide)).2.2 (by decide) (by decide)

/-- C5: the review endpoint rejects an empty list with an HTTP 400
error, and on every non-empty list whose items all validate it returns
the ACK response whose `receivedItems` is the length of the list —
hence `receivedItems ≥ 1` on every success. -/
theorem review_endpoint_ack_spec :
    handle_review_endpoint [] =
      Except.error (HTTPError.mk 400
        "A requisição deve conter pelo menos um item na lista.") ∧
    ∀ raw ps, validateAll raw = Except.ok ps → raw ≠ [] →
      handle_review_endpoint raw =
          Except.ok (ReviewResponse.mk "ACK"
            "Solicitação(ões) de revisão recebida(s) com sucesso." raw.length) ∧
        1 ≤ raw.length := by
  constructor
  · rfl
  · intro raw ps h hne
    have hlen := validateAll_ok_length h
    have hps : ps ≠ [] := by
      intro hnil
      apply hne
      rw [hnil] at hlen
      exact List.length_eq_zero.mp hlen.symm
    unfold handle_review_endpoint
    rw [h]
    constructor
    · show create_review_request ps = _
      unfold create_review_request
      rw [if_neg hps, hlen]
    · cases raw with
      | nil => exact absurd rfl hne
      | cons x xs => simp

/-- C5 witness: the singleton example payload evaluated through the
theorem. -/
theorem review_endpoint_ack_spec_witness :
    (validateAll [exInput] = Except.ok [exOut] ∧ [exInput] ≠ []) ∧
    (handle_review_endpoint [exInput] =
        Except.ok (ReviewResponse.mk "ACK"
          "Solicitação(ões) de revisão recebida(s) com sucesso."
          [exInput].length) ∧
      1 ≤ [exInput].length) := by
  refine ⟨⟨by decide, by simp⟩, ?_⟩
  exact review_endpoint_ack_spec.2 [exInput] [exOut] (by decide) (by simp)

/-- C6 counterexample: `exInputInt` (the valid example with
`accessionNumber` given as the JSON number 123) validates successfully,
but serializing the result does not give the input back, nor the input
with only whitespace trimming applied: the field has changed from the
number 123 to the string "123". -/
theorem roundtrip_counterexample :
    ReviewRequest.validate exInputInt = Except.ok exOutInt ∧
    exInputInt.accessionNumber = RawValue.int 123 ∧
    (ReviewRequest.serialize exOutInt).accessionNumber = RawValue.str "123" ∧
    (ReviewRequest.serialize exOutInt).accessionNumber ≠ exInputInt.accessionNumber ∧
    (ReviewRequest.serialize exOutInt).accessionNumber ≠
      trimRawValue exInputInt.accessionNumber ∧
    ReviewRequest.serialize exOutInt ≠ exInputInt ∧
    ReviewRequest.serialize exOutInt ≠ trimRawReviewRequest exInputInt := by
  decide

/-- C6 (amended): for every input that validates successfully and whose
`not_empty`-validated fields are given as strings, serializing the
validated request back to the input shape yields exactly the input with
those string fields whitespace-trimmed — booleans, the email, nested
structure and `otherDescription` are unchanged. -/
theorem roundtrip_trim_spec (r : RawReviewRequest) (v : ReviewRequest)
    (hok : ReviewRequest.validate r = Except.ok v)
    (hs : stringTyped r = true) :
    ReviewRequest.serialize v = trimRawReviewRequest r := by
  obtain rfl := rr_validate_ok hok
  obtain ⟨acc, phys, flag, assigned, jus, reasons⟩ := r
  obtain ⟨pname, pcc, pprn, pcsc, pphone, pemail, pcpf⟩ := phys
  unfold stringTyped at hs
  simp only [Bool.and_eq_true] at hs
  obtain ⟨⟨⟨⟨⟨⟨⟨⟨hacc, hjus⟩, hn⟩, hcc⟩, hprn⟩, hcsc⟩, hph⟩, hcpf⟩, hopt⟩ := hs
  obtain ⟨s1, rfl⟩ := isStr_exists hacc
  obtain ⟨s2, rfl⟩ := isStr_exists hjus
  obtain ⟨s3, rfl⟩ := isStr_exists hn
  obtain ⟨s4, rfl⟩ := isStr_exists hcc
  obtain ⟨s5, rfl⟩ := isStr_exists hprn
  obtain ⟨s6, rfl⟩ := isStr_exists hcsc
  obtain ⟨s7, rfl⟩ := isStr_exists hph
  obtain ⟨s8, rfl⟩ := isStr_exists hcpf
  cases assigned with
  | none => rfl
  | some ap =>
    obtain ⟨q1, q2⟩ := ap
    simp only [Bool.and_eq_true] at hopt
    obtain ⟨h1, h2⟩ := hopt
    obtain ⟨t1, rfl⟩ := isStr_exists h1
    obtain ⟨t2, rfl⟩ := isStr_exists h2
    rfl

/-- C6 witness: the all-string example payload round-trips to its
trimmed form. -/
theorem roundtrip_trim_spec_witness :
    (ReviewRequest.validate exInput = Except.ok exOut ∧ stringTyped exInput = true) ∧
    ReviewRequest.serialize exOut = trimRawReviewRequest exInput :=
  ⟨⟨by decide, by decide⟩, roundtrip_trim_spec exInput exOut (by decide) (by decide)⟩

/-- C7: the application exposes `GET /health` returning HTTP 200 with
body status "UP" and service "revisaolaudo". -/
theorem health_endpoint_spec :
    health_check.1 = 200 ∧ health_check.2.status = "UP" ∧
      health_check.2.service = "revisaolaudo" :=
  ⟨rfl, rfl, rfl⟩

/-- C8: the required-field rule does not reject non-null values on
type — any non-null raw value is converted with `str()`, stripped, and
accepted whenever the result is non-empty; in particular
`accessionNumber` given as the number 123 validates to the string
"123". -/
theorem not_empty_coercion_spec :
    (∀ v : RawValue, v ≠ RawValue.null → pyStrip (pyStr v) ≠ "" →
      ReviewRequest.not_empty v = Except.ok (pyStrip (pyStr v))) ∧
    ReviewRequest.not_empty (RawValue.int 123) = Except.ok "123" ∧
    ReviewRequest.validate exInputInt = Except.ok exOutInt ∧
    exOutInt.accessionNumber = "123" := by
  refine ⟨?_, by decide, by decide, rfl⟩
  intro v h1 h2
  simp [ReviewRequest.not_empty, h1, h2]

/-- C8 witness: the general clause applied to a boolean raw value. -/
theorem not_empty_coercion_spec_witness :
    (RawValue.bool true ≠ RawValue.null ∧ pyStrip (pyStr (RawValue.bool true)) ≠ "") ∧
    ReviewRequest.not_empty (RawValue.bool true) =
      Except.ok (pyStrip (pyStr (RawValue.bool true))) :=
  ⟨⟨by decide, by decide⟩,
    not_empty_coercion_spec.1 (RawValue.bool true) (by decide) (by decide)⟩

/-- An 11-character CPF candidate made of Arabic-Indic digit characters
(U+0663), none of which is an ASCII digit. -/
def arabicCpf : String := "٣٣٣٣٣٣٣٣٣٣٣"

/-- C9: the CPF digit check follows Python `str.isdigit`, which accepts
Unicode digits: an 11-character string of Arabic-Indic digits, containing
no ASCII digit, passes `validate_cpf_digits` unchanged. -/
theorem cpf_unicode_digits_spec :
    arabicCpf.data.length = 11 ∧
    arabicCpf.data.all (fun c => !(c.isDigit)) = true ∧
    RequestingPhysician.validate_cpf_digits arabicCpf = Except.ok arabicCpf := by
  decide

/-- C10: the success response of the endpoint depends only on the
length of the validated payload list: two non-empty lists of equal
length produce identical responses. -/
theorem ack_length_only_spec (xs ys : List ReviewRequest)
    (hx : xs ≠ []) (hy : ys ≠ []) (hlen : xs.length = ys.length) :
    create_review_request xs = create_review_request ys := by
  unfold create_review_request
  rw [if_neg hx, if_neg hy, hlen]

/-- C10 witness: two different singleton payloads give the same
response. -/
theorem ack_length_only_spec_witness :
    ([exOut] ≠ ([] : List ReviewRequest) ∧ [exOutInt] ≠ ([] : List ReviewRequest)
        ∧ [exOut].length = [exOutInt].length ∧ exOut ≠ exOutInt) ∧
    create_review_request [exOut] = create_review_request [exOutInt] :=
  ⟨⟨by simp, by simp, rfl, by decide⟩,
    ack_length_only_spec [exOut] [exOutInt] (by simp) (by simp) rfl⟩

end RevisaoLaudo
